import Mathlib

/-
Verification of the synthesis-validate-retry agent (agent.py).

This file shallowly embeds the program's data model and operations:

* a pandas DataFrame is modelled as an ordered column list, a per-column
  dtype-name list and a list of rows of cells; `DataFrame.equals` models
  `pandas.DataFrame.equals` (labels, dtypes and values must agree, with
  missing values at the same location comparing equal);
* a generated candidate's observable behaviour under the harness is an
  oracle value `CandidateBehavior` (the module-load step raises, the
  `parse` attribute is missing, `parse` raises, or `parse` returns a
  Python value), since the candidate itself is untrusted external code;
* `testParser` embeds `test_parser` (agent.py lines 180-246) including the
  message text of every classified failure;
* `peek_pdf_structure` embeds the document prober (lines 47-69) over an
  explicit pdfplumber oracle;
* `build_prompt` embeds the prompt composer (lines 72-163) over an explicit
  file-system state, with simplified but deterministic renderings of the
  pandas reprs that the f-string interpolates;
* `pySplit` models Python `str.split` for a non-empty separator, and
  `extract_code` embeds the fence-stripping step (lines 296-300);
* `loopGo` / `agent_loop` / `mainExit` embed the retry loop and the CLI
  exit status (lines 249-324 and 327-350), with the LLM service as an
  oracle `String → Option String` (`none` models a raised exception, which
  `call_llm` turns into `sys.exit(1)`).
-/

/-- Models one cell of a pandas DataFrame. `na` is a missing value (NaN);
numeric cells are modelled as integers since the harness only ever compares
cells for equality. `DataFrame.equals` treats NaNs in the same location as
equal, which the derived decidable equality reflects (`na = na`). -/
inductive Cell where
  | na : Cell
  | str : String → Cell
  | num : Int → Cell
deriving DecidableEq

/-- Models a pandas DataFrame: ordered column labels, per-column dtype names
and the table body as a list of rows. -/
structure DataFrame where
  columns : List String
  dtypes : List String
  rows : List (List Cell)
deriving DecidableEq

/-- Models `DataFrame.shape`: (number of rows, number of columns). -/
def DataFrame.shape (df : DataFrame) : Nat × Nat :=
  (df.rows.length, df.columns.length)

/-- Models `pandas.DataFrame.equals`: column labels, dtypes and all values
must coincide (missing values in the same location count as equal). -/
def DataFrame.equals (a b : DataFrame) : Bool :=
  a.columns == b.columns && a.dtypes == b.dtypes && a.rows == b.rows

/-- Models a Python exception instance as the harness renders it:
`type(e).__name__`, `str(e)` and `traceback.format_exc()`. -/
structure PyExn where
  name : String
  msg : String
  trace : String
deriving DecidableEq

/-- Models the value returned by the candidate's `parse` function: either a
DataFrame, or any other Python value carrying its `type(...)` rendering. -/
inductive PyValue where
  | dataframe : DataFrame → PyValue
  | other : String → PyValue
deriving DecidableEq

/-- Oracle for the observable behaviour of one candidate artifact when
`test_parser` loads and runs it. The candidate is untrusted generated code,
so its behaviour is an input of the model:
* `loadRaises e` — `spec.loader.exec_module` raises `e` (syntax error,
  missing import, module-level raise);
* `noParseAttr msg tr` — the module loads but has no `parse` attribute, so
  the access `parser_module.parse` raises an `AttributeError`;
* `parseRaises e` — `parse(pdf_path)` raises `e` (this also covers a `parse`
  that rejects the single positional argument, raising a `TypeError`);
* `returns v` — `parse(pdf_path)` returns the Python value `v`. -/
inductive CandidateBehavior where
  | loadRaises : PyExn → CandidateBehavior
  | noParseAttr : String → String → CandidateBehavior
  | parseRaises : PyExn → CandidateBehavior
  | returns : PyValue → CandidateBehavior

/-- Joins rendered pieces with a separator (used by the repr helpers). -/
def joinWith (sep : String) : List String → String
  | [] => ""
  | [x] => x
  | x :: y :: xs => x ++ sep ++ joinWith sep (y :: xs)

/-- Models Python `repr` of a string (quotes it). -/
def pyStrRepr (s : String) : String :=
  "'" ++ s ++ "'"

/-- Models Python list repr of a list of strings, as f-strings render
`list(df.columns)`. -/
def pyListRepr (l : List String) : String :=
  "[" ++ joinWith ", " (l.map pyStrRepr) ++ "]"

/-- Models the rendering of one cell inside a printed row or dict. -/
def cellRepr : Cell → String
  | Cell.na => "nan"
  | Cell.str s => pyStrRepr s
  | Cell.num i => toString i

/-- Models `Series.to_dict()` as printed for `df.iloc[0]` (a column-to-value
dict). Literal braces are escaped. -/
def rowDictRepr (cols : List String) (row : List Cell) : String :=
  "\x7b" ++ joinWith ", " ((cols.zip row).map fun p => pyStrRepr p.1 ++ ": " ++ cellRepr p.2) ++ "\x7d"

/-- Models the printed `df.dtypes.to_dict()` map. -/
def dtypesDictRepr (df : DataFrame) : String :=
  "\x7b" ++ joinWith ", " ((df.columns.zip df.dtypes).map fun p => pyStrRepr p.1 ++ ": dtype(" ++ pyStrRepr p.2 ++ ")") ++ "\x7d"

/-- Models the printed shape tuple `(rows, cols)`. -/
def shapeRepr (p : Nat × Nat) : String :=
  "(" ++ toString p.1 ++ ", " ++ toString p.2 ++ ")"

/-- Message of the type-check failure (agent.py line 196). -/
def typeMismatchMsg (tyName : String) : String :=
  "parse() returned " ++ tyName ++ ", expected DataFrame"

/-- Message of the column-check failure (agent.py lines 200-204). -/
def columnMismatchMsg (expected actual : DataFrame) : String :=
  "\nColumn mismatch!\nExpected: " ++ pyListRepr expected.columns ++ "\nGot: " ++ pyListRepr actual.columns ++ "\n"

/-- Message of the shape-check failure (agent.py lines 208-212). -/
def shapeMismatchMsg (expected actual : DataFrame) : String :=
  "\nShape mismatch!\nExpected: " ++ shapeRepr expected.shape ++ " (rows, cols)\nGot: " ++ shapeRepr actual.shape ++ "\n"

/-- Message of the catch-all `except Exception` handler (agent.py lines
237-246): every exception escaping the load/run/compare steps is rendered
this one way. -/
def execErrorMsg (e : PyExn) : String :=
  "\nCode execution error: " ++ e.name ++ "\n" ++ e.msg ++ "\n\nTraceback:\n" ++ e.trace ++ "\n"

/-- Placeholder traceback text for the `IndexError` that `iloc[0]` raises
inside the detailed-diff construction when the frames have zero rows; the
outer handler catches it, so only its presence matters. -/
def ilocTraceback : String :=
  "Traceback (most recent call last): iloc[0]"

/-- Message of the final exact-equality failure (agent.py lines 220-235).
When both frames have at least one row it is the detailed diff; when the
frames are empty, `expected_df.iloc[0]` raises an `IndexError`, which the
catch-all handler converts to the uniform execution-error message. -/
def notEqualMsg (expected actual : DataFrame) : String :=
  match expected.rows, actual.rows with
  | e0 :: _, a0 :: _ =>
    "\nDataFrames not exactly equal. Differences found:\n\nExpected first row:\n" ++
      rowDictRepr expected.columns e0 ++
      "\n\nActual first row:\n" ++ rowDictRepr actual.columns a0 ++
      "\n\nExpected dtypes:\n" ++ dtypesDictRepr expected ++
      "\n\nActual dtypes:\n" ++ dtypesDictRepr actual ++ "\n"
  | _, _ =>
    execErrorMsg ⟨ "IndexError", "single positional indexer is out-of-bounds", ilocTraceback ⟩

/-- Embeds `test_parser` (agent.py lines 180-246): load the candidate, run
`parse`, then check in order — type, columns, shape, exact equality — and
return `(True, None)` on a perfect match or `(False, message)` on the first
failing stage; any exception raised along the way is caught by the one
catch-all handler and rendered by `execErrorMsg`. -/
def testParser (cand : CandidateBehavior) (expected : DataFrame) : Bool × Option String :=
  match cand with
  | CandidateBehavior.loadRaises e => (false, some (execErrorMsg e))
  | CandidateBehavior.noParseAttr msg tr => (false, some (execErrorMsg ⟨ "AttributeError", msg, tr ⟩))
  | CandidateBehavior.parseRaises e => (false, some (execErrorMsg e))
  | CandidateBehavior.returns (PyValue.other tyName) => (false, some (typeMismatchMsg tyName))
  | CandidateBehavior.returns (PyValue.dataframe actual) =>
    if actual.columns ≠ expected.columns then
      (false, some (columnMismatchMsg expected actual))
    else if actual.shape ≠ expected.shape then
      (false, some (shapeMismatchMsg expected actual))
    else if expected.equals actual then
      (true, none)
    else
      (false, some (notEqualMsg expected actual))

/-- Models one pdfplumber page: `extract_text()` may return `None`, and
`extract_tables()` returns a list of tables (lists of rows of cells). -/
structure PdfPage where
  extractText : Option String
  extractTables : List (List (List (Option String)))

/-- Models an open pdfplumber document. -/
structure PdfDoc where
  pages : List PdfPage

/-- Explicit file-system / library state threaded through the embedding:
`fileExists` models `Path(...).exists()`, `read_csv` models `pd.read_csv`
(total oracle — the loop only calls it on files it checked exist), and
`openPdf` models `pdfplumber.open`, whose failure carries `str(e)`. -/
structure FS where
  fileExists : String → Bool
  read_csv : String → DataFrame
  openPdf : String → Except String PdfDoc

/-- The body of the `try` block of `peek_pdf_structure` (agent.py lines
52-67), made exception-transparent: `Except.error` is a raised exception,
rendered as `str(e)`. The raise points are `pdfplumber.open` itself,
`pdf.pages[0]` on an empty page list (`IndexError`), and the slice
`page.extract_text()[:500]` when `extract_text()` is `None` (`TypeError`). -/
def peekBody (fs : FS) (pdf_path : String) : Except String String :=
  match fs.openPdf pdf_path with
  | Except.error e => Except.error e
  | Except.ok pdf =>
    match pdf.pages with
    | [] => Except.error "list index out of range"
    | page :: _ =>
      match page.extractText with
      | none => Except.error "'NoneType' object is not subscriptable"
      | some t =>
        let text_sample : String := ⟨ t.data.take 500 ⟩
        let tables := page.extractTables
        let s := "\nPDF has " ++ toString pdf.pages.length ++
          " page(s)\nFirst page text sample:\n" ++ text_sample ++
          "\n\nNumber of tables detected: " ++ toString tables.length ++ "\n"
        match tables with
        | [] => Except.ok s
        | t0 :: _ => Except.ok (s ++ "First table has " ++ toString t0.length ++ " rows")

/-- Embeds `peek_pdf_structure` (agent.py lines 47-69): the whole body runs
under `try`, and any exception is converted to the degraded probe string. -/
def peek_pdf_structure (fs : FS) (pdf_path : String) : String :=
  match peekBody fs pdf_path with
  | Except.ok s => s
  | Except.error e => "Could not analyze PDF: " ++ e

/-- Simplified deterministic rendering of `expected_df.head(3).to_string()`
(only determinism and well-definedness of this text matter to the claims). -/
def headToString (df : DataFrame) : String :=
  joinWith "\n" (joinWith "  " df.columns :: (df.rows.take 3).map fun r => joinWith "  " (r.map cellRepr))

/-- The base task text of `build_prompt` (agent.py lines 82-130), with the
f-string interpolations of the reference schema spliced in. -/
def basePromptText (pdf_structure : String) (expected_df : DataFrame) : String :=
  "You are a Python coding expert. Write a complete Python parser function.\n\nTASK: Create a function `parse(pdf_path)` that extracts bank statement data from PDF.\n\nPDF STRUCTURE:\n" ++
  pdf_structure ++
  "\n\nIMPORTANT: This PDF has MULTIPLE PAGES with DUPLICATE HEADERS on each page. \nYou MUST skip the header row on each page individually to avoid duplicate headers in your final data.\n\nREQUIRED OUTPUT SCHEMA:\nColumns: " ++
  pyListRepr expected_df.columns ++
  "\nData types: " ++ dtypesDictRepr expected_df ++
  "\nExpected rows: " ++ toString expected_df.rows.length ++
  " (EXACTLY this many rows, no more, no less)\n\nSAMPLE EXPECTED OUTPUT (first 3 rows):\n" ++
  headToString expected_df ++
  "\n\nREQUIREMENTS:\n1. Function signature: def parse(pdf_path: str) -> pd.DataFrame\n2. Use pdfplumber library to extract tables\n3. Return pandas DataFrame matching the schema EXACTLY\n4. Column names must match exactly: " ++
  pyListRepr expected_df.columns ++
  "\n5. Handle data type conversions (dates, numbers)\n6. Clean the data (remove nulls, strip whitespace)\n7. Include proper imports at the top\n8. CRITICAL: Process each page separately and skip headers on each page to avoid duplicates\n\nRECOMMENDED APPROACH:\n```python\nfor page in pdf.pages:\n    table = page.extract_table()\n    if table:\n        for row in table[1:]:  # Skip header on each page\n            all_data.append(row)\n```\n\nCODE TEMPLATE:\n```python\nimport pandas as pd\nimport pdfplumber\nfrom typing import Any\n\ndef parse(pdf_path: str) -> pd.DataFrame:\n    '''Parse bank statement PDF and return DataFrame'''\n    # Your code here\n    pass\n```\n"

/-- The error-correction context appended from the second attempt on
(agent.py lines 134-155). -/
def feedbackText (previous_code error_msg : String) (attempt : Nat) : String :=
  "\n\n❌ PREVIOUS ATTEMPT " ++ toString (attempt - 1) ++ " FAILED WITH ERROR:\n" ++
  error_msg ++
  "\n\nPREVIOUS CODE THAT FAILED:\n```python\n" ++
  previous_code ++
  "\n```\n\nINSTRUCTIONS FOR FIX:\n- Analyze the error above carefully\n- If you get \"Shape mismatch\" with more rows than expected, you're likely including duplicate headers from multiple PDF pages\n- Process each page individually: for page in pdf.pages: ... for row in table[1:]: ...\n- If you get \"DataFrames not exactly equal\" check for NaN vs 0.0 issues - use float('nan') for empty values, not 0.0\n- Make sure column names match EXACTLY\n- Ensure data types are correct\n- The PDF has multiple pages with headers on each page - skip them all\n- Test your logic mentally before responding\n\nNOW WRITE THE CORRECTED CODE:\n"

/-- The closing instruction appended to every prompt (agent.py lines
157-161). -/
def tailText : String :=
  "\n\nCRITICAL: Return ONLY the Python code, nothing else. No explanations, no markdown.\nStart directly with 'import' statements.\n"

/-- Embeds `build_prompt` (agent.py lines 72-163). It re-reads the reference
table and re-probes the document on every call, so the file-system state is
an explicit argument. The feedback block is appended only when
`previous_code and error_msg` is truthy in Python, i.e. both are present
and non-empty. -/
def build_prompt (fs : FS) (pdf_path csv_path : String)
    (previous_code error_msg : Option String) (attempt : Nat) : String :=
  let expected_df := fs.read_csv csv_path
  let pdf_structure := peek_pdf_structure fs pdf_path
  let prompt := basePromptText pdf_structure expected_df
  let prompt :=
    match previous_code, error_msg with
    | some pc, some em =>
      if pc = "" ∨ em = "" then prompt else prompt ++ feedbackText pc em attempt
    | _, _ => prompt
  prompt ++ tailText

/-- Fuel-indexed model of Python `str.split` on `List Char` for a non-empty
separator: scan left to right, cut at each non-overlapping occurrence of
`sep`. The fuel only serves structural recursion; `pySplit` supplies enough
fuel (one unit per character) for the scan to finish. -/
def pySplitGo (sep : List Char) : Nat → List Char → List (List Char)
  | _, [] => [[]]
  | 0, s => [s]
  | fuel + 1, c :: rest =>
    if sep.isPrefixOf (c :: rest) then
      [] :: pySplitGo sep fuel ((c :: rest).drop sep.length)
    else
      match pySplitGo sep fuel rest with
      | [] => [c :: rest]
      | p :: ps => (c :: p) :: ps

/-- Models Python `str.split(sep)` (non-empty `sep`) on char lists. -/
def pySplit (sep s : List Char) : List (List Char) :=
  pySplitGo sep s.length s

/-- Models Python's substring membership test `sep in s`. -/
def pyContains (sep s : List Char) : Bool :=
  decide (sep <:+: s)

/-- The whitespace class of Python `str.strip()` (ASCII part). -/
def wsChar (c : Char) : Bool :=
  c == ' ' || c == '\t' || c == '\n' || c == '\r' || c == '\x0b' || c == '\x0c'

/-- Models Python `str.strip()` on a char list. -/
def trimList (l : List Char) : List Char :=
  ((l.dropWhile wsChar).reverse.dropWhile wsChar).reverse

/-- Models Python `str.strip()` on strings. -/
def pyStrip (s : String) : String :=
  ⟨ trimList s.data ⟩

/-- The characters of the unlabeled fence marker. -/
def fenceL : List Char :=
  ['`', '`', '`']

/-- The characters of the labeled fence marker. -/
def pyFenceL : List Char :=
  ['`', '`', '`', 'p', 'y', 't', 'h', 'o', 'n']

/-- Embeds the candidate extractor (agent.py lines 296-300):
if the response contains a labeled fence, take the text between the first
labeled fence and the next fence; else if it contains any fence, take the
text between the first two fences; else take the response whole. Finally
strip whitespace. `split(x)[1]` is the piece after the first occurrence of
`x` up to the next one, and `split(x)[0]` the piece before the first. -/
def extractList (l : List Char) : List Char :=
  if pyContains pyFenceL l then
    (pySplit fenceL ((pySplit pyFenceL l).getD 1 [])).getD 0 []
  else if pyContains fenceL l then
    (pySplit fenceL ((pySplit fenceL l).getD 1 [])).getD 0 []
  else l

/-- The extractor on strings: isolate the fenced block then strip. -/
def extract_code (raw : String) : String :=
  ⟨ trimList (extractList raw.data) ⟩

/-- The run environment: file-system state, the LLM service (an oracle from
prompt text to response; `none` models a raised exception inside
`model.generate_content`), and the behaviour of each persisted candidate
under load-and-run (an oracle from candidate source text). -/
structure Env where
  fs : FS
  llm : String → Option String
  runCandidate : String → CandidateBehavior

/-- The conventional document location for a bank (agent.py line 254). -/
def pdfPathOf (bank : String) : String :=
  "data/" ++ bank ++ "/" ++ bank ++ "_sample.pdf"

/-- The conventional reference location for a bank (agent.py line 255). -/
def csvPathOf (bank : String) : String :=
  "data/" ++ bank ++ "/" ++ bank ++ "_sample.csv"

/-- Embeds `call_llm` (agent.py lines 27-44): a successful service call
returns the response text; any exception prints an error and calls
`sys.exit(1)`, modelled as `Except.error 1`. -/
def call_llm (llm : String → Option String) (prompt : String) : Except Nat String :=
  match llm prompt with
  | some text => Except.ok text
  | none => Except.error 1

/-- One completed generate/extract/persist/validate cycle of the loop. -/
structure AttemptRec where
  attempt : Nat
  prompt : String
  code : String
  outcome : Bool × Option String

/-- How a run of the loop ends: `fatal c t` — the process called
`sys.exit c` mid-loop (fatal LLM service failure) after the completed
cycles `t`; `finished b t` — `agent_loop` returned `b` after cycles `t`. -/
inductive LoopResult where
  | fatal : Nat → List AttemptRec → LoopResult
  | finished : Bool → List AttemptRec → LoopResult

/-- The completed cycles of a loop outcome. -/
def traceOf : LoopResult → List AttemptRec
  | LoopResult.fatal _ t => t
  | LoopResult.finished _ t => t

/-- How many times the LLM service was called in a loop outcome: once per
completed cycle, plus the one failing call of a fatal outcome. -/
def llmCalls : LoopResult → Nat
  | LoopResult.fatal _ t => t.length + 1
  | LoopResult.finished _ t => t.length

/-- The body of the `for attempt in range(1, max_attempts + 1)` loop of
`agent_loop` (agent.py lines 277-324), by recursion on the remaining
attempts. Each iteration composes the prompt from the previous failure,
calls the LLM (a service failure exits the process), extracts and persists
the candidate, validates it, and either returns success immediately or
carries the candidate text and failure message into the next iteration. -/
def loopGo (env : Env) (pdf_path csv_path : String) (expected : DataFrame) :
    Nat → Option String → Option String → Nat → LoopResult
  | 0, _, _, _ => LoopResult.finished false []
  | remaining + 1, previous_code, error_msg, attempt =>
    let prompt := build_prompt env.fs pdf_path csv_path previous_code error_msg attempt
    match call_llm env.llm prompt with
    | Except.error c => LoopResult.fatal c []
    | Except.ok raw =>
      let code := extract_code raw
      let result := testParser (env.runCandidate code) expected
      let r : AttemptRec := ⟨ attempt, prompt, code, result ⟩
      if result.fst then LoopResult.finished true [r]
      else
        match loopGo env pdf_path csv_path expected remaining (some code) result.snd (attempt + 1) with
        | LoopResult.fatal c t => LoopResult.fatal c (r :: t)
        | LoopResult.finished b t => LoopResult.finished b (r :: t)

/-- Embeds `agent_loop` (agent.py lines 249-324): a missing document or
reference file returns `False` before any attempt; otherwise the reference
table is loaded once and the attempt loop runs with budget `max_attempts`. -/
def agent_loop (env : Env) (bank : String) (max_attempts : Nat) : LoopResult :=
  if env.fs.fileExists (pdfPathOf bank) = false then LoopResult.finished false []
  else if env.fs.fileExists (csvPathOf bank) = false then LoopResult.finished false []
  else
    loopGo env (pdfPathOf bank) (csvPathOf bank) (env.fs.read_csv (csvPathOf bank))
      max_attempts none none 1

/-- Embeds `main` (agent.py lines 327-350): process exit status 0 when
`agent_loop` returns `True`, 1 when it returns `False`, and the exit code
of any `sys.exit` raised mid-run (the fatal LLM path). -/
def mainExit (env : Env) (bank : String) (max_attempts : Nat) : Nat :=
  match agent_loop env bank max_attempts with
  | LoopResult.fatal c _ => c
  | LoopResult.finished b _ => if b then 0 else 1

/-- Executable substring test on char lists (scan every suffix). -/
def containsSeq : List Char → List Char → Bool
  | needle, [] => needle.isEmpty
  | needle, c :: rest => needle.isPrefixOf (c :: rest) || containsSeq needle rest

/-- The needle occurs as contiguous substring of the haystack. -/
def strContains (needle hay : String) : Prop :=
  containsSeq needle.data hay.data = true

instance (needle hay : String) : Decidable (strContains needle hay) := by
  unfold strContains; infer_instance

/-- Small concrete reference table used by witnesses. -/
def dfSample : DataFrame :=
  ⟨ ["Date", "Amount"], ["object", "float64"], [[Cell.str "01-01-2024", Cell.num 100]] ⟩

/-- A reference table differing from `dfSample` only in one column label. -/
def dfAlt : DataFrame :=
  ⟨ ["Datum", "Amount"], ["object", "float64"], [[Cell.str "01-01-2024", Cell.num 100]] ⟩

/-- Concrete one-page document used by witnesses. -/
def pdfSample : PdfDoc :=
  ⟨ [⟨ some "Sample bank statement", [[[some "Date", some "Amount"]]] ⟩] ⟩

/-- File-system state where both inputs exist and parse cleanly. -/
def fsSample : FS :=
  ⟨ fun _ => true, fun _ => dfSample, fun _ => Except.ok pdfSample ⟩

/-- File-system state identical to `fsSample` except for the reference
table's content at every path. -/
def fsAlt : FS :=
  ⟨ fun _ => true, fun _ => dfAlt, fun _ => Except.ok pdfSample ⟩

/-- File-system state whose document cannot be opened. -/
def fsNoPdf : FS :=
  ⟨ fun _ => true, fun _ => dfSample, fun _ => Except.error "No such file" ⟩

/-- Environment of a run whose first candidate validates successfully. -/
def envSample : Env :=
  ⟨ fsSample, fun _ => some "```python\nimport pandas\n```",
    fun _ => CandidateBehavior.returns (PyValue.dataframe dfSample) ⟩

/-- Environment whose LLM service always fails (raises). -/
def envNoLLM : Env :=
  ⟨ fsSample, fun _ => none,
    fun _ => CandidateBehavior.returns (PyValue.dataframe dfSample) ⟩

/-- Environment whose candidates always fail validation (wrong row count). -/
def envAllFail : Env :=
  ⟨ fsSample, fun _ => some "import pandas",
    fun _ => CandidateBehavior.returns (PyValue.dataframe ⟨ ["Date", "Amount"], ["object", "float64"], [] ⟩) ⟩

/-- A character read inside the left part of an appended string. -/
theorem data_getElem_append_left (s t : String) (i : Nat) (c : Char)
    (h : s.data[i]? = some c) : (s ++ t).data[i]? = some c := by
  have hi : i < s.data.length := by
    rcases List.getElem?_eq_some.mp h with ⟨hlt, _⟩
    exact hlt
  rw [String.data_append, List.getElem?_append, if_pos hi]
  exact h

/-- A string with a non-empty left append part is non-empty. -/
theorem append_ne_empty_left (s t : String) (h : s ≠ "") : s ++ t ≠ "" := by
  intro he
  apply h
  have hd := congrArg String.data he
  rw [String.data_append] at hd
  rcases List.append_eq_nil.mp hd with ⟨h1, _⟩
  apply String.ext
  rw [h1]

/-- Two strings that disagree at some position differ. -/
theorem str_ne_of_nth (s t : String) (i : Nat)
    (h : s.data[i]? ≠ t.data[i]?) : s ≠ t := by
  intro he
  exact h (by rw [he])

/-- The type-failure message starts with the letter p. -/
theorem typeMismatchMsg_nth0 (ty : String) :
    (typeMismatchMsg ty).data[0]? = some 'p' := by
  unfold typeMismatchMsg
  apply data_getElem_append_left
  apply data_getElem_append_left
  decide

/-- The column-failure message starts with a newline. -/
theorem columnMismatchMsg_nth0 (e a : DataFrame) :
    (columnMismatchMsg e a).data[0]? = some '\n' := by
  unfold columnMismatchMsg
  apply data_getElem_append_left
  apply data_getElem_append_left
  apply data_getElem_append_left
  apply data_getElem_append_left
  decide

/-- The shape-failure message starts with a newline. -/
theorem shapeMismatchMsg_nth0 (e a : DataFrame) :
    (shapeMismatchMsg e a).data[0]? = some '\n' := by
  unfold shapeMismatchMsg
  apply data_getElem_append_left
  apply data_getElem_append_left
  apply data_getElem_append_left
  apply data_getElem_append_left
  decide

/-- The shape-failure message has `S` at position 1. -/
theorem shapeMismatchMsg_nth1 (e a : DataFrame) :
    (shapeMismatchMsg e a).data[1]? = some 'S' := by
  unfold shapeMismatchMsg
  apply data_getElem_append_left
  apply data_getElem_append_left
  apply data_getElem_append_left
  apply data_getElem_append_left
  decide

/-- The execution-error message has `C` at position 1 (and a leading newline). -/
theorem execErrorMsg_nth1 (e : PyExn) :
    (execErrorMsg e).data[1]? = some 'C' := by
  unfold execErrorMsg
  apply data_getElem_append_left
  apply data_getElem_append_left
  apply data_getElem_append_left
  apply data_getElem_append_left
  apply data_getElem_append_left
  apply data_getElem_append_left
  decide

/-- The exact-equality-failure message starts with a newline. -/
theorem notEqualMsg_nth0 (e a : DataFrame) :
    (notEqualMsg e a).data[0]? = some '\n' := by
  unfold notEqualMsg
  rcases e.rows with _ | ⟨e0, es⟩ <;> rcases a.rows with _ | ⟨a0, as⟩
  case nil.nil | nil.cons | cons.nil =>
    unfold execErrorMsg
    apply data_getElem_append_left
    apply data_getElem_append_left
    apply data_getElem_append_left
    apply data_getElem_append_left
    apply data_getElem_append_left
    apply data_getElem_append_left
    decide
  case cons.cons =>
    apply data_getElem_append_left
    apply data_getElem_append_left
    apply data_getElem_append_left
    apply data_getElem_append_left
    apply data_getElem_append_left
    apply data_getElem_append_left
    apply data_getElem_append_left
    apply data_getElem_append_left
    decide

/-- At position 1 the exact-equality-failure message holds `D` (detailed
diff) or `C` (the caught `IndexError` on an empty frame). -/
theorem notEqualMsg_nth1 (e a : DataFrame) :
    (notEqualMsg e a).data[1]? = some 'D' ∨ (notEqualMsg e a).data[1]? = some 'C' := by
  unfold notEqualMsg
  rcases e.rows with _ | ⟨e0, es⟩ <;> rcases a.rows with _ | ⟨a0, as⟩
  case nil.nil | nil.cons | cons.nil =>
    right
    apply execErrorMsg_nth1
  case cons.cons =>
    left
    apply data_getElem_append_left
    apply data_getElem_append_left
    apply data_getElem_append_left
    apply data_getElem_append_left
    apply data_getElem_append_left
    apply data_getElem_append_left
    apply data_getElem_append_left
    apply data_getElem_append_left
    decide

/-- The type-failure message is never the column-failure message. -/
theorem typeMsg_ne_columnMsg (ty : String) (e a : DataFrame) :
    typeMismatchMsg ty ≠ columnMismatchMsg e a := by
  apply str_ne_of_nth _ _ 0
  rw [typeMismatchMsg_nth0, columnMismatchMsg_nth0]
  decide

/-- The type-failure message is never the shape-failure message. -/
theorem typeMsg_ne_shapeMsg (ty : String) (e a : DataFrame) :
    typeMismatchMsg ty ≠ shapeMismatchMsg e a := by
  apply str_ne_of_nth _ _ 0
  rw [typeMismatchMsg_nth0, shapeMismatchMsg_nth0]
  decide

/-- The type-failure message is never the exact-equality-failure message. -/
theorem typeMsg_ne_notEqualMsg (ty : String) (e a : DataFrame) :
    typeMismatchMsg ty ≠ notEqualMsg e a := by
  apply str_ne_of_nth _ _ 0
  rw [typeMismatchMsg_nth0, notEqualMsg_nth0]
  decide

/-- The shape-failure message is never the exact-equality-failure message. -/
theorem shapeMsg_ne_notEqualMsg (e a e2 a2 : DataFrame) :
    shapeMismatchMsg e a ≠ notEqualMsg e2 a2 := by
  apply str_ne_of_nth _ _ 1
  rw [shapeMismatchMsg_nth1]
  rcases notEqualMsg_nth1 e2 a2 with h | h <;> rw [h] <;> decide

/-- The type-failure message is non-empty. -/
theorem typeMismatchMsg_ne_empty (ty : String) : typeMismatchMsg ty ≠ "" := by
  unfold typeMismatchMsg
  apply append_ne_empty_left
  apply append_ne_empty_left
  decide

/-- The column-failure message is non-empty. -/
theorem columnMismatchMsg_ne_empty (e a : DataFrame) : columnMismatchMsg e a ≠ "" := by
  unfold columnMismatchMsg
  apply append_ne_empty_left
  apply append_ne_empty_left
  apply append_ne_empty_left
  apply append_ne_empty_left
  decide

/-- The shape-failure message is non-empty. -/
theorem shapeMismatchMsg_ne_empty (e a : DataFrame) : shapeMismatchMsg e a ≠ "" := by
  unfold shapeMismatchMsg
  apply append_ne_empty_left
  apply append_ne_empty_left
  apply append_ne_empty_left
  apply append_ne_empty_left
  decide

/-- The execution-error message is non-empty. -/
theorem execErrorMsg_ne_empty (e : PyExn) : execErrorMsg e ≠ "" := by
  unfold execErrorMsg
  apply append_ne_empty_left
  apply append_ne_empty_left
  apply append_ne_empty_left
  apply append_ne_empty_left
  apply append_ne_empty_left
  apply append_ne_empty_left
  decide

/-- The exact-equality-failure message is non-empty. -/
theorem notEqualMsg_ne_empty (e a : DataFrame) : notEqualMsg e a ≠ "" := by
  unfold notEqualMsg
  rcases e.rows with _ | ⟨e0, es⟩ <;> rcases a.rows with _ | ⟨a0, as⟩
  case nil.nil | nil.cons | cons.nil =>
    apply execErrorMsg_ne_empty
  case cons.cons =>
    apply append_ne_empty_left
    apply append_ne_empty_left
    apply append_ne_empty_left
    apply append_ne_empty_left
    apply append_ne_empty_left
    apply append_ne_empty_left
    apply append_ne_empty_left
    apply append_ne_empty_left
    decide

/-- Every failing harness outcome carries a non-empty message. -/
theorem testParser_failure_msg_ne_empty (cand : CandidateBehavior) (df : DataFrame)
    (msg : String) (h : testParser cand df = (false, some msg)) : msg ≠ "" := by
  rcases cand with e | ⟨m, tr⟩ | e | v
  · rw [testParser] at h
    injection h with h1 h2
    injection h2 with h2
    rw [← h2]
    apply execErrorMsg_ne_empty
  · rw [testParser] at h
    injection h with h1 h2
    injection h2 with h2
    rw [← h2]
    apply execErrorMsg_ne_empty
  · rw [testParser] at h
    injection h with h1 h2
    injection h2 with h2
    rw [← h2]
    apply execErrorMsg_ne_empty
  · rcases v with actual | ty
    · rw [testParser] at h
      by_cases hc : actual.columns ≠ df.columns
      · rw [if_pos hc] at h
        injection h with h1 h2
        injection h2 with h2
        rw [← h2]
        apply columnMismatchMsg_ne_empty
      · rw [if_neg hc] at h
        by_cases hs : actual.shape ≠ df.shape
        · rw [if_pos hs] at h
          injection h with h1 h2
          injection h2 with h2
          rw [← h2]
          apply shapeMismatchMsg_ne_empty
        · rw [if_neg hs] at h
          by_cases he : DataFrame.equals df actual
          · rw [if_pos he] at h
            injection h with h1 h2
            cases h1
          · rw [if_neg he] at h
            injection h with h1 h2
            injection h2 with h2
            rw [← h2]
            apply notEqualMsg_ne_empty
    · rw [testParser] at h
      injection h with h1 h2
      injection h2 with h2
      rw [← h2]
      apply typeMismatchMsg_ne_empty

/-- Case split of the harness result: perfect match or classified failure. -/
theorem testParser_cases (cand : CandidateBehavior) (expected : DataFrame) :
    testParser cand expected = (true, none) ∨
      ∃ msg, testParser cand expected = (false, some msg) := by
  rcases cand with e | ⟨m, tr⟩ | e | v
  · right; exact ⟨_, rfl⟩
  · right; exact ⟨_, rfl⟩
  · right; exact ⟨_, rfl⟩
  · rcases v with adf | ty
    · simp only [testParser]
      split
      · right; exact ⟨_, rfl⟩
      · split
        · right; exact ⟨_, rfl⟩
        · split
          · left; rfl
          · right; exact ⟨_, rfl⟩
    · right; exact ⟨_, rfl⟩

/-- C1: a returned DataFrame identical to the reference in columns, dtypes,
shape and values yields Success `(True, None)`; a differing body with equal
columns, dtypes and row count yields the detailed value-mismatch Failure; a
differing (e.g. swapped) column list yields the column-mismatch Failure; an
equal column list with a differing row count yields the shape-mismatch
Failure — each Failure being `False` with a non-empty message. -/
theorem spec_c1 (expected actual : DataFrame) :
    (actual = expected →
       testParser (CandidateBehavior.returns (PyValue.dataframe actual)) expected = (true, none)) ∧
    (actual.columns = expected.columns → actual.dtypes = expected.dtypes →
     actual.rows.length = expected.rows.length → actual.rows ≠ expected.rows →
       testParser (CandidateBehavior.returns (PyValue.dataframe actual)) expected
           = (false, some (notEqualMsg expected actual)) ∧ notEqualMsg expected actual ≠ "") ∧
    (actual.columns ≠ expected.columns →
       testParser (CandidateBehavior.returns (PyValue.dataframe actual)) expected
           = (false, some (columnMismatchMsg expected actual)) ∧ columnMismatchMsg expected actual ≠ "") ∧
    (actual.columns = expected.columns → actual.rows.length ≠ expected.rows.length →
       testParser (CandidateBehavior.returns (PyValue.dataframe actual)) expected
           = (false, some (shapeMismatchMsg expected actual)) ∧ shapeMismatchMsg expected actual ≠ "") := by
  refine ⟨?_, ?_, ?_, ?_⟩
  · intro h
    subst h
    simp [testParser, DataFrame.equals]
  · intro hc hd hl hr
    have hcne : ¬(actual.columns ≠ expected.columns) := not_not_intro hc
    have hsh : actual.shape = expected.shape := by
      unfold DataFrame.shape
      rw [hc, hl]
    have hshne : ¬(actual.shape ≠ expected.shape) := not_not_intro hsh
    have heq : DataFrame.equals expected actual = false := by
      unfold DataFrame.equals
      have hrow : (expected.rows == actual.rows) = false :=
        beq_eq_false_iff_ne.mpr fun hyp => hr hyp.symm
      rw [hrow]
      simp
    refine ⟨?_, notEqualMsg_ne_empty expected actual⟩
    simp only [testParser]
    rw [if_neg hcne, if_neg hshne, if_neg (by simp [heq])]
  · intro hc
    refine ⟨?_, columnMismatchMsg_ne_empty expected actual⟩
    simp only [testParser]
    rw [if_pos hc]
  · intro hc hl
    have hcne : ¬(actual.columns ≠ expected.columns) := not_not_intro hc
    have hshne : actual.shape ≠ expected.shape := by
      unfold DataFrame.shape
      intro h
      exact hl (congrArg Prod.fst h)
    refine ⟨?_, shapeMismatchMsg_ne_empty expected actual⟩
    simp only [testParser]
    rw [if_neg hcne, if_pos hshne]

/-- Witness for C1 at concrete tables: the identical table succeeds, a
table with a renamed first column fails with the column-mismatch message. -/
theorem spec_c1_witness :
    testParser (CandidateBehavior.returns (PyValue.dataframe dfSample)) dfSample = (true, none) ∧
    testParser (CandidateBehavior.returns (PyValue.dataframe dfAlt)) dfSample
        = (false, some (columnMismatchMsg dfSample dfAlt)) :=
  ⟨ (spec_c1 dfSample dfSample).1 rfl, ((spec_c1 dfSample dfAlt).2.2.1 (by decide)).1 ⟩

/-- C2: the harness checks stages in strict order and short-circuits. A
non-DataFrame return is classified by the type message alone — the result
does not depend on the reference table at all, and the message differs from
every column, shape and value message. A DataFrame with matching columns
but differing row count is classified by the shape message, which is never
the value-mismatch message. -/
theorem spec_c2 (tyName : String) (expected expected2 actual : DataFrame) :
    (testParser (CandidateBehavior.returns (PyValue.other tyName)) expected
        = (false, some (typeMismatchMsg tyName)) ∧
     testParser (CandidateBehavior.returns (PyValue.other tyName)) expected
        = testParser (CandidateBehavior.returns (PyValue.other tyName)) expected2 ∧
     (∀ e a, typeMismatchMsg tyName ≠ columnMismatchMsg e a) ∧
     (∀ e a, typeMismatchMsg tyName ≠ shapeMismatchMsg e a) ∧
     (∀ e a, typeMismatchMsg tyName ≠ notEqualMsg e a)) ∧
    (actual.columns = expected.columns → actual.rows.length ≠ expected.rows.length →
       testParser (CandidateBehavior.returns (PyValue.dataframe actual)) expected
           = (false, some (shapeMismatchMsg expected actual)) ∧
       (∀ e2 a2, shapeMismatchMsg expected actual ≠ notEqualMsg e2 a2)) := by
  refine ⟨⟨rfl, rfl, typeMsg_ne_columnMsg tyName, typeMsg_ne_shapeMsg tyName,
    typeMsg_ne_notEqualMsg tyName⟩, ?_⟩
  intro hc hl
  have hcne : ¬(actual.columns ≠ expected.columns) := not_not_intro hc
  have hshne : actual.shape ≠ expected.shape := by
    unfold DataFrame.shape
    intro h
    exact hl (congrArg Prod.fst h)
  refine ⟨?_, shapeMsg_ne_notEqualMsg expected actual⟩
  simp only [testParser]
  rw [if_neg hcne, if_pos hshne]

/-- Witness for C2 at concrete inputs: a non-DataFrame return is classified
by the type message, and a row-count mismatch by the shape message. -/
theorem spec_c2_witness :
    testParser (CandidateBehavior.returns (PyValue.other "<class 'int'>")) dfSample
        = (false, some (typeMismatchMsg "<class 'int'>")) ∧
    testParser (CandidateBehavior.returns (PyValue.dataframe ⟨ ["Date", "Amount"], ["object", "float64"], [] ⟩)) dfSample
        = (false, some (shapeMismatchMsg dfSample ⟨ ["Date", "Amount"], ["object", "float64"], [] ⟩)) :=
  ⟨ ((spec_c2 "<class 'int'>" dfSample dfSample dfSample).1).1,
    ((spec_c2 "<class 'int'>" dfSample dfSample ⟨ ["Date", "Amount"], ["object", "float64"], [] ⟩).2 rfl (by decide)).1 ⟩

/-- C7 counterexample: the harness does not assign distinct kinds to load,
contract and runtime failures. A module-level raise during load and the
same exception raised inside `parse` produce byte-identical outcomes, and a
missing `parse` attribute is indistinguishable from a runtime
`AttributeError` — there is no LoadError or ContractError classification,
only the one catch-all execution-error rendering. -/
theorem spec_c7_counterexample :
    testParser (CandidateBehavior.loadRaises ⟨ "ValueError", "boom", "tb" ⟩) dfSample
        = testParser (CandidateBehavior.parseRaises ⟨ "ValueError", "boom", "tb" ⟩) dfSample ∧
    testParser (CandidateBehavior.noParseAttr "module 'custom_parser' has no attribute 'parse'" "tb2") dfSample
        = testParser (CandidateBehavior.parseRaises ⟨ "AttributeError", "module 'custom_parser' has no attribute 'parse'", "tb2" ⟩) dfSample :=
  ⟨ rfl, rfl ⟩

/-- C7 amended: every load-time failure, missing-entry-point failure and
runtime failure is returned as `(False, msg)` where `msg` is the single
uniform code-execution rendering embedding the exception's type name,
message and traceback; the harness does not classify them as distinct
kinds. -/
theorem spec_c7_amended (e : PyExn) (m tr : String) (df : DataFrame) :
    testParser (CandidateBehavior.loadRaises e) df = (false, some (execErrorMsg e)) ∧
    testParser (CandidateBehavior.noParseAttr m tr) df
        = (false, some (execErrorMsg ⟨ "AttributeError", m, tr ⟩)) ∧
    testParser (CandidateBehavior.parseRaises e) df = (false, some (execErrorMsg e)) :=
  ⟨ rfl, rfl, rfl ⟩

/-- C10: the harness is total over candidate behaviours: it always returns
a pair, either `(True, None)` or `(False, msg)` with a non-empty message,
and it reports success exactly when the error component is `None`. -/
theorem spec_c10 (cand : CandidateBehavior) (expected : DataFrame) :
    (testParser cand expected = (true, none) ∨
       ∃ msg, testParser cand expected = (false, some msg) ∧ msg ≠ "") ∧
    ((testParser cand expected).fst = true ↔ (testParser cand expected).snd = none) := by
  have h := testParser_cases cand expected
  constructor
  · rcases h with h | ⟨m, hm⟩
    · left; exact h
    · right; exact ⟨m, hm, testParser_failure_msg_ne_empty cand expected m hm⟩
  · rcases h with h | ⟨m, hm⟩
    · rw [h]; simp
    · rw [hm]; simp

/-- C8: the document prober never raises. Its entire body runs inside the
`try` block (`peekBody`); on a successful probe the structure text is
returned, and on every extraction failure — the open call raising, a
document with no pages (`pdf.pages[0]` raises `IndexError`), or a page
whose `extract_text()` is `None` (slicing raises `TypeError`) — the prober
returns the degraded explanatory string instead of propagating. -/
theorem spec_c8 (fs : FS) (path : String) :
    (∀ e, peekBody fs path = Except.error e →
       peek_pdf_structure fs path = "Could not analyze PDF: " ++ e) ∧
    (∀ s, peekBody fs path = Except.ok s → peek_pdf_structure fs path = s) ∧
    (∀ e, fs.openPdf path = Except.error e →
       peek_pdf_structure fs path = "Could not analyze PDF: " ++ e) ∧
    (∀ pdf, fs.openPdf path = Except.ok pdf → pdf.pages = [] →
       peek_pdf_structure fs path = "Could not analyze PDF: " ++ "list index out of range") ∧
    (∀ pdf page rest, fs.openPdf path = Except.ok pdf → pdf.pages = page :: rest →
       page.extractText = none →
       peek_pdf_structure fs path = "Could not analyze PDF: " ++ "'NoneType' object is not subscriptable") := by
  refine ⟨?_, ?_, ?_, ?_, ?_⟩
  · intro e he
    unfold peek_pdf_structure
    rw [he]
  · intro s hs
    unfold peek_pdf_structure
    rw [hs]
  · intro e he
    simp [peek_pdf_structure, peekBody, he]
  · intro pdf hpdf hpages
    simp [peek_pdf_structure, peekBody, hpdf, hpages]
  · intro pdf page rest hpdf hpages htext
    simp [peek_pdf_structure, peekBody, hpdf, hpages, htext]

/-- Witness for C8: a document that cannot be opened yields the degraded
probe string. -/
theorem spec_c8_witness :
    peek_pdf_structure fsNoPdf "data/icici/icici_sample.pdf"
      = "Could not analyze PDF: " ++ "No such file" :=
  (spec_c8 fsNoPdf "data/icici/icici_sample.pdf").2.2.1 "No such file" rfl

set_option maxRecDepth 20000 in
/-- C9 counterexample: the composer is not a pure function of its call
arguments. Two invocations of `build_prompt` with byte-identical arguments
(paths, feedback, attempt number) return different text when the reference
file's content differs between the two file-system states, because the
composer re-reads the file on every call. -/
theorem spec_c9_counterexample :
    build_prompt fsSample "data/icici/icici_sample.pdf" "data/icici/icici_sample.csv" none none 1
      ≠ build_prompt fsAlt "data/icici/icici_sample.pdf" "data/icici/icici_sample.csv" none none 1 := by
  intro h
  exact absurd (congrArg String.length h) (by decide)

/-- C9 amended: the composer writes no state and reads only the reference
table at the given csv path and the document at the given pdf path: any
two file-system states agreeing on those two reads produce byte-identical
task text for identical (feedback, attempt) arguments. -/
theorem spec_c9_amended (fs1 fs2 : FS) (pdf_path csv_path : String)
    (previous_code error_msg : Option String) (attempt : Nat)
    (hcsv : fs1.read_csv csv_path = fs2.read_csv csv_path)
    (hpdf : fs1.openPdf pdf_path = fs2.openPdf pdf_path) :
    build_prompt fs1 pdf_path csv_path previous_code error_msg attempt
      = build_prompt fs2 pdf_path csv_path previous_code error_msg attempt := by
  unfold build_prompt peek_pdf_structure peekBody
  rw [hcsv, hpdf]

/-- Witness for C9 at two structurally separate but extensionally agreeing
file-system states. -/
theorem spec_c9_amended_witness :
    build_prompt fsSample "p" "c" (some "x = 1") (some "err") 2
      = build_prompt ⟨ fun _ => true, fun _ => dfSample, fun _ => Except.ok pdfSample ⟩
          "p" "c" (some "x = 1") (some "err") 2 :=
  spec_c9_amended fsSample ⟨ fun _ => true, fun _ => dfSample, fun _ => Except.ok pdfSample ⟩
    "p" "c" (some "x = 1") (some "err") 2 rfl rfl

/-- The substring scan is sound and complete for the infix relation. -/
theorem containsSeq_iff (needle hay : List Char) :
    containsSeq needle hay = true ↔ needle <:+: hay := by
  induction hay with
  | nil =>
    simp [containsSeq, List.isEmpty_iff, List.infix_nil]
  | cons c rest ih =>
    simp [containsSeq, ih, List.isPrefixOf_iff_prefix, List.infix_cons_iff]

/-- The substring relation holds of a string and itself. -/
theorem strContains_refl (m : String) : strContains m m := by
  unfold strContains
  exact (containsSeq_iff _ _).mpr (List.infix_refl _)

/-- Every character of a substring occurs in the containing string. -/
theorem strContains_subset (n h : String) (hc : strContains n h) :
    ∀ c ∈ n.data, c ∈ h.data := by
  unfold strContains at hc
  rw [containsSeq_iff] at hc
  rcases hc with ⟨u, v, huv⟩
  intro c hcn
  rw [← huv]
  simp [List.mem_append]
  exact Or.inr (Or.inl hcn)

/-- A substring of the left part is a substring of the append. -/
theorem strContains_append_right (m a b : String) (h : strContains m a) :
    strContains m (a ++ b) := by
  unfold strContains at h ⊢
  rw [containsSeq_iff] at h ⊢
  rcases h with ⟨u, v, huv⟩
  refine ⟨u, v ++ b.data, ?_⟩
  rw [String.data_append, ← huv]
  simp [List.append_assoc]

/-- A substring of the right part is a substring of the append. -/
theorem strContains_append_left (m a b : String) (h : strContains m b) :
    strContains m (a ++ b) := by
  unfold strContains at h ⊢
  rw [containsSeq_iff] at h ⊢
  rcases h with ⟨u, v, huv⟩
  refine ⟨a.data ++ u, v, ?_⟩
  rw [String.data_append, ← huv]
  simp [List.append_assoc]

/-- With a non-empty previous candidate and non-empty failure message, the
composed prompt is the base text, the feedback block, then the tail. -/
theorem build_prompt_with_feedback (fs : FS) (pdf_path csv_path pc em : String)
    (attempt : Nat) (hpc : pc ≠ "") (hem : em ≠ "") :
    build_prompt fs pdf_path csv_path (some pc) (some em) attempt
      = basePromptText (peek_pdf_structure fs pdf_path) (fs.read_csv csv_path)
          ++ feedbackText pc em attempt ++ tailText := by
  simp only [build_prompt]
  rw [if_neg (not_or.mpr ⟨hpc, hem⟩)]

/-- C5 amended: for every attempt whose predecessor failed with a non-empty
extracted source, the composed description literally contains the
predecessor's source text and its failure message, and every failing
harness outcome hands the loop a non-empty message. (As originally stated
the claim fails when the predecessor's extracted source is empty: the
Python truthiness test `if previous_code and error_msg` then drops the
whole feedback block, message included.) -/
theorem spec_c5_amended (fs : FS) (pdf_path csv_path pc em : String)
    (attempt : Nat) (hpc : pc ≠ "") (hem : em ≠ "") :
    strContains pc (build_prompt fs pdf_path csv_path (some pc) (some em) attempt) ∧
    strContains em (build_prompt fs pdf_path csv_path (some pc) (some em) attempt) ∧
    (∀ cand df msg, testParser cand df = (false, some msg) → msg ≠ "") := by
  rw [build_prompt_with_feedback fs pdf_path csv_path pc em attempt hpc hem]
  refine ⟨?_, ?_, fun cand df msg h => testParser_failure_msg_ne_empty cand df msg h⟩
  · apply strContains_append_right
    apply strContains_append_left
    unfold feedbackText
    apply strContains_append_right
    apply strContains_append_left
    exact strContains_refl pc
  · apply strContains_append_right
    apply strContains_append_left
    unfold feedbackText
    apply strContains_append_right
    apply strContains_append_right
    apply strContains_append_right
    apply strContains_append_left
    exact strContains_refl em

/-- Witness for C5 at a concrete environment, code and message. -/
theorem spec_c5_amended_witness :
    strContains "import pandas" (build_prompt fsSample "p" "c" (some "import pandas") (some "boom") 2) ∧
    strContains "boom" (build_prompt fsSample "p" "c" (some "import pandas") (some "boom") 2) := by
  have h := spec_c5_amended fsSample "p" "c" "import pandas" "boom" 2 (by decide) (by decide)
  exact ⟨h.1, h.2.1⟩

set_option maxRecDepth 20000 in
/-- C5 counterexample: a predecessor can fail (with the usual non-empty
classified message) while its extracted source is the empty string — an
empty or fence-only model response extracts to "" — and then the next
prompt does not contain the failure message at all: the feedback block is
dropped by the truthiness test, refuting the claim as stated. -/
theorem spec_c5_counterexample :
    testParser (CandidateBehavior.noParseAttr "module 'custom_parser' has no attribute 'parse'" "  File \"custom_parser.py\", line 1, in <module>") dfSample
        = (false, some (execErrorMsg ⟨ "AttributeError", "module 'custom_parser' has no attribute 'parse'", "  File \"custom_parser.py\", line 1, in <module>" ⟩)) ∧
    extract_code "" = "" ∧
    ¬ strContains (execErrorMsg ⟨ "AttributeError", "module 'custom_parser' has no attribute 'parse'", "  File \"custom_parser.py\", line 1, in <module>" ⟩)
        (build_prompt fsSample "data/icici/icici_sample.pdf" "data/icici/icici_sample.csv"
          (some "") (some (execErrorMsg ⟨ "AttributeError", "module 'custom_parser' has no attribute 'parse'", "  File \"custom_parser.py\", line 1, in <module>" ⟩)) 2) := by
  refine ⟨rfl, ?_, ?_⟩
  · rfl
  · intro hcon
    have hsub := strContains_subset _ _ hcon '\"' (by decide)
    exact absurd hsub (by decide)

/-- The split of the empty text is one empty piece, whatever the fuel. -/
theorem pySplitGo_nil (sep : List Char) (fuel : Nat) : pySplitGo sep fuel [] = [[]] := by
  cases fuel <;> rfl

/-- A list is a `isPrefixOf`-prefix of itself followed by anything. -/
theorem isPrefixOf_append_self (l r : List Char) : l.isPrefixOf (l ++ r) = true := by
  induction l with
  | nil => cases r <;> rfl
  | cons c cs ih => simp [List.isPrefixOf, ih]

/-- One scan step of the split: a separator occurrence at the head is cut. -/
theorem pySplitGo_step (sep r : List Char) (fuel : Nat) (hne : sep ≠ []) :
    pySplitGo sep (fuel + 1) (sep ++ r) = [] :: pySplitGo sep fuel r := by
  obtain ⟨c, cs, rfl⟩ := List.exists_cons_of_ne_nil hne
  rw [List.cons_append]
  simp only [pySplitGo]
  have hpre : (c :: cs).isPrefixOf (c :: (cs ++ r)) = true := isPrefixOf_append_self (c :: cs) r
  rw [if_pos hpre]
  simp [List.length_cons, List.drop_succ_cons, List.drop_left]

/-- A region without any separator occurrence is returned as one piece. -/
theorem pySplitGo_no_occurrence (sep : List Char) :
    ∀ (fuel : Nat) (s : List Char), s.length ≤ fuel → ¬ sep <:+: s →
      pySplitGo sep fuel s = [s] := by
  intro fuel
  induction fuel with
  | zero =>
    intro s hl _
    rw [List.eq_nil_of_length_eq_zero (Nat.le_zero.mp hl)]
    rfl
  | succ f ih =>
    intro s hl hni
    cases s with
    | nil => rfl
    | cons c rest =>
      simp only [pySplitGo]
      rw [if_neg ?hpre]
      case hpre =>
        intro hp
        exact hni ((List.isPrefixOf_iff_prefix.mp hp).isInfix)
      rw [ih rest (by simp at hl; omega)
        (fun hi => hni (List.infix_cons_iff.mpr (Or.inr hi)))]

/-- Splitting a backtick-free region followed by one closing fence yields
the region and an empty trailing piece. -/
theorem pySplitGo_body_fence :
    ∀ (body : List Char) (fuel : Nat), '`' ∉ body → (body ++ fenceL).length ≤ fuel →
      pySplitGo fenceL fuel (body ++ fenceL) = [body, []] := by
  intro body
  induction body with
  | nil =>
    intro fuel _ hlen
    obtain ⟨f, rfl⟩ : ∃ f, fuel = f + 1 := ⟨fuel - 1, by simp [fenceL] at hlen; omega⟩
    simp only [List.nil_append]
    have hstep := pySplitGo_step fenceL [] f (by simp [fenceL])
    rw [List.append_nil] at hstep
    rw [hstep, pySplitGo_nil]
  | cons c cs ih =>
    intro fuel hmem hlen
    have hc : c ≠ '`' := fun hh => hmem (by rw [hh]; exact List.mem_cons_self _ _)
    obtain ⟨f, rfl⟩ : ∃ f, fuel = f + 1 := ⟨fuel - 1, by simp at hlen; omega⟩
    rw [List.cons_append]
    simp only [pySplitGo]
    rw [if_neg ?hpre]
    case hpre =>
      intro hp
      rcases List.isPrefixOf_iff_prefix.mp hp with ⟨t, ht⟩
      simp [fenceL] at ht
      exact hc ht.1.symm
    rw [ih f (fun hm => hmem (List.mem_cons_of_mem c hm)) (by simp at hlen ⊢; omega)]

/-- The head of an infix occurrence is a member of the list. -/
theorem head_mem_of_occurrence (c : Char) (t l : List Char) (h : (c :: t) <:+: l) :
    c ∈ l := by
  rcases h with ⟨u, v, huv⟩
  rw [← huv]
  simp

/-- A backtick-free list contains no fence occurrence. -/
theorem no_fence_occurrence (l : List Char) (h : '`' ∉ l) : ¬ fenceL <:+: l := by
  intro hin
  rw [show fenceL = '`' :: ['`', '`'] from rfl] at hin
  exact h (head_mem_of_occurrence _ _ _ hin)

/-- The labeled marker cannot occur in a backtick-free region followed by
one newline and the closing fence. -/
theorem not_pyFence_infix_tail :
    ∀ (s : List Char), '`' ∉ s → ¬ pyFenceL <:+: (s ++ '\n' :: fenceL) := by
  intro s
  induction s with
  | nil =>
    intro _ h
    have := h.length_le
    simp [pyFenceL, fenceL] at this
  | cons c cs ih =>
    intro hmem h
    rw [List.cons_append] at h
    rcases List.infix_cons_iff.mp h with hp | hi
    · rcases hp with ⟨t, ht⟩
      simp [pyFenceL] at ht
      exact hmem (by rw [← ht.1]; exact List.mem_cons_self _ _)
    · exact ih (fun hm => hmem (List.mem_cons_of_mem c hm)) hi

/-- The labeled marker cannot occur in an unlabeled-fenced response around
a backtick-free source. -/
theorem not_pyFence_infix_unlabeled (s : List Char) (h : '`' ∉ s) :
    ¬ pyFenceL <:+: (fenceL ++ ('\n' :: (s ++ '\n' :: fenceL))) := by
  intro hin
  rw [show fenceL ++ ('\n' :: (s ++ '\n' :: fenceL))
      = '`' :: '`' :: '`' :: '\n' :: (s ++ '\n' :: fenceL) from rfl] at hin
  rcases List.infix_cons_iff.mp hin with hp | hin
  · rcases hp with ⟨t, ht⟩
    have h3 := congrArg (fun l => l[3]?) ht
    simp [pyFenceL] at h3
  · rcases List.infix_cons_iff.mp hin with hp | hin
    · rcases hp with ⟨t, ht⟩
      have h2 := congrArg (fun l => l[2]?) ht
      simp [pyFenceL] at h2
    · rcases List.infix_cons_iff.mp hin with hp | hin
      · rcases hp with ⟨t, ht⟩
        have h1 := congrArg (fun l => l[1]?) ht
        simp [pyFenceL] at h1
      · rcases List.infix_cons_iff.mp hin with hp | hin
        · rcases hp with ⟨t, ht⟩
          have h0 := congrArg (fun l => l[0]?) ht
          simp [pyFenceL] at h0
        · exact not_pyFence_infix_tail s h hin

/-- Stripping skips a leading whitespace character. -/
theorem trimList_cons_ws (a : Char) (l : List Char) (h : wsChar a = true) :
    trimList (a :: l) = trimList l := by
  unfold trimList
  simp [List.dropWhile_cons, h]

/-- Stripping skips a trailing whitespace character. -/
theorem trimList_concat_ws (l : List Char) (a : Char) (h : wsChar a = true) :
    trimList (l ++ [a]) = trimList l := by
  unfold trimList
  rw [List.dropWhile_append]
  by_cases h0 : (l.dropWhile wsChar).isEmpty
  · rw [if_pos h0]
    have ha : ([a].dropWhile wsChar) = [] := by simp [List.dropWhile_cons, h]
    rw [ha, List.isEmpty_iff.mp h0]
  · rw [if_neg h0]
    rw [List.reverse_append]
    simp [List.dropWhile_cons, h]

/-- Stripping the newline-wrapped inner text gives the stripped text. -/
theorem trimList_wrap (l : List Char) :
    trimList ('\n' :: (l ++ ['\n'])) = trimList l := by
  rw [trimList_cons_ws _ _ (by decide), trimList_concat_ws _ _ (by decide)]

/-- Extraction from a response wrapped in a labeled fenced block yields the
newline-wrapped inner source. -/
theorem extractList_labeled (s : List Char) (h : '`' ∉ s) :
    extractList (pyFenceL ++ ('\n' :: (s ++ '\n' :: fenceL))) = '\n' :: (s ++ ['\n']) := by
  have hT : '\n' :: (s ++ '\n' :: fenceL) = ('\n' :: (s ++ ['\n'])) ++ fenceL := by
    simp [List.append_assoc]
  unfold extractList
  rw [if_pos ?hc1]
  case hc1 =>
    unfold pyContains
    rw [decide_eq_true_iff]
    exact ⟨[], '\n' :: (s ++ '\n' :: fenceL), rfl⟩
  have h1 : pySplit pyFenceL (pyFenceL ++ ('\n' :: (s ++ '\n' :: fenceL)))
      = [[], '\n' :: (s ++ '\n' :: fenceL)] := by
    unfold pySplit
    have hlen : (pyFenceL ++ ('\n' :: (s ++ '\n' :: fenceL))).length
        = (8 + ('\n' :: (s ++ '\n' :: fenceL)).length) + 1 := by
      simp [pyFenceL]
      omega
    rw [hlen, pySplitGo_step _ _ _ (by simp [pyFenceL])]
    rw [pySplitGo_no_occurrence pyFenceL _ _ (by omega) ?hni]
    case hni =>
      have := not_pyFence_infix_tail ('\n' :: s) (by simp [h])
      rw [List.cons_append] at this
      exact this
  rw [h1]
  have h2 : pySplit fenceL ('\n' :: (s ++ '\n' :: fenceL)) = ['\n' :: (s ++ ['\n']), []] := by
    unfold pySplit
    rw [hT]
    exact pySplitGo_body_fence _ _ (by simp [h]) (le_refl _)
  show ((pySplit fenceL ('\n' :: (s ++ '\n' :: fenceL))).getD 0 []) = '\n' :: (s ++ ['\n'])
  rw [h2]
  rfl

/-- Extraction from a response wrapped in an unlabeled fenced block yields
the newline-wrapped inner source. -/
theorem extractList_unlabeled (s : List Char) (h : '`' ∉ s) :
    extractList (fenceL ++ ('\n' :: (s ++ '\n' :: fenceL))) = '\n' :: (s ++ ['\n']) := by
  have hT : '\n' :: (s ++ '\n' :: fenceL) = ('\n' :: (s ++ ['\n'])) ++ fenceL := by
    simp [List.append_assoc]
  unfold extractList
  rw [if_neg ?hc1, if_pos ?hc2]
  case hc1 =>
    unfold pyContains
    rw [decide_eq_true_iff]
    exact not_pyFence_infix_unlabeled s h
  case hc2 =>
    unfold pyContains
    rw [decide_eq_true_iff]
    exact ⟨[], '\n' :: (s ++ '\n' :: fenceL), rfl⟩
  have h1 : pySplit fenceL (fenceL ++ ('\n' :: (s ++ '\n' :: fenceL)))
      = [[], '\n' :: (s ++ ['\n']), []] := by
    unfold pySplit
    have hlen : (fenceL ++ ('\n' :: (s ++ '\n' :: fenceL))).length
        = (2 + ('\n' :: (s ++ '\n' :: fenceL)).length) + 1 := by
      simp [fenceL]
      omega
    rw [hlen, pySplitGo_step _ _ _ (by simp [fenceL])]
    rw [hT, pySplitGo_body_fence _ _ (by simp [h]) (by omega)]
  rw [h1]
  have h2 : pySplit fenceL ('\n' :: (s ++ ['\n'])) = ['\n' :: (s ++ ['\n'])] := by
    unfold pySplit
    exact pySplitGo_no_occurrence fenceL _ _ (le_refl _) (no_fence_occurrence _ (by simp [h]))
  show ((pySplit fenceL ('\n' :: (s ++ ['\n']))).getD 0 []) = '\n' :: (s ++ ['\n'])
  rw [h2]
  rfl

/-- Extraction from a response with no fence marker returns it whole. -/
theorem extractList_no_fence (l : List Char) (h : ¬ fenceL <:+: l) :
    extractList l = l := by
  unfold extractList
  rw [if_neg ?h1, if_neg ?h2]
  case h1 =>
    unfold pyContains
    rw [decide_eq_true_iff]
    intro hin
    have hpre : fenceL <+: pyFenceL := ⟨['p', 'y', 't', 'h', 'o', 'n'], rfl⟩
    exact h (hpre.isInfix.trans hin)
  case h2 =>
    unfold pyContains
    rw [decide_eq_true_iff]
    exact h

/-- C6: the candidate extractor yields the same stripped inner source for a
labeled fenced response, an unlabeled fenced response, and the bare source
(for any backtick-free source text); and on any response containing no
fence marker at all it returns the whole response stripped. -/
theorem spec_c6 :
    (∀ s : String, '`' ∉ s.data →
       extract_code ("```python\n" ++ s ++ "\n```") = pyStrip s ∧
       extract_code ("```\n" ++ s ++ "\n```") = pyStrip s ∧
       extract_code s = pyStrip s) ∧
    (∀ raw : String, ¬ fenceL <:+: raw.data → extract_code raw = pyStrip raw) := by
  constructor
  · intro s hs
    refine ⟨?_, ?_, ?_⟩
    · unfold extract_code
      have hd : ("```python\n" ++ s ++ "\n```").data
          = pyFenceL ++ ('\n' :: (s.data ++ '\n' :: fenceL)) := by
        rw [String.data_append, String.data_append]
        rw [show ("```python\n" : String).data = pyFenceL ++ ['\n'] from rfl]
        rw [show ("\n```" : String).data = '\n' :: fenceL from rfl]
        simp [List.append_assoc]
      rw [hd, extractList_labeled s.data hs, trimList_wrap]
      rfl
    · unfold extract_code
      have hd : ("```\n" ++ s ++ "\n```").data
          = fenceL ++ ('\n' :: (s.data ++ '\n' :: fenceL)) := by
        rw [String.data_append, String.data_append]
        rw [show ("```\n" : String).data = fenceL ++ ['\n'] from rfl]
        rw [show ("\n```" : String).data = '\n' :: fenceL from rfl]
        simp [List.append_assoc]
      rw [hd, extractList_unlabeled s.data hs, trimList_wrap]
      rfl
    · unfold extract_code
      rw [extractList_no_fence s.data (no_fence_occurrence s.data hs)]
      rfl
  · intro raw hr
    unfold extract_code
    rw [extractList_no_fence raw.data hr]
    rfl

/-- Witness for C6 on a concrete backtick-free source text. -/
theorem spec_c6_witness :
    extract_code ("```python\n" ++ "import pandas as pd" ++ "\n```") = pyStrip "import pandas as pd" ∧
    extract_code ("```\n" ++ "import pandas as pd" ++ "\n```") = pyStrip "import pandas as pd" ∧
    extract_code "import pandas as pd" = pyStrip "import pandas as pd" :=
  spec_c6.1 "import pandas as pd" (by decide)

/-- Full characterization of the attempt loop, by induction on the
remaining budget: a fatal outcome carries exit code 1 and strictly fewer
completed cycles than the budget, all failed; a success stops immediately
after the first succeeding cycle; a normal failure outcome means the whole
budget was spent on failing cycles. -/
theorem loopGo_char (env : Env) (p c : String) (exp : DataFrame) :
    ∀ (rem : Nat) (prev emsg : Option String) (att : Nat),
      (match loopGo env p c exp rem prev emsg att with
       | LoopResult.fatal cd t => cd = 1 ∧ t.length < rem ∧ ∀ x ∈ t, x.outcome.fst = false
       | LoopResult.finished true t =>
           t.length ≤ rem ∧ ∃ pre last, t = pre ++ [last] ∧ last.outcome.fst = true ∧
             ∀ x ∈ pre, x.outcome.fst = false
       | LoopResult.finished false t => t.length = rem ∧ ∀ x ∈ t, x.outcome.fst = false) := by
  intro rem
  induction rem with
  | zero =>
    intro prev emsg att
    simp [loopGo]
  | succ n ih =>
    intro prev emsg att
    simp only [loopGo]
    cases hl : env.llm (build_prompt env.fs p c prev emsg att) with
    | none =>
      simp [call_llm, hl]
    | some raw =>
      simp only [call_llm, hl]
      by_cases hres : (testParser (env.runCandidate (extract_code raw)) exp).fst = true
      · simp only [hres, if_true]
        exact ⟨by simp, [], _, rfl, hres, by simp⟩
      · have hres' : (testParser (env.runCandidate (extract_code raw)) exp).fst = false :=
          Bool.eq_false_iff.mpr hres
        rw [if_neg hres]
        cases hrec : loopGo env p c exp n (some (extract_code raw))
            (testParser (env.runCandidate (extract_code raw)) exp).snd (att + 1) with
        | fatal cd t =>
          have hih := ih (some (extract_code raw))
            ((testParser (env.runCandidate (extract_code raw)) exp).snd) (att + 1)
          rw [hrec] at hih
          refine ⟨hih.1, by have := hih.2.1; simp only [List.length_cons]; omega, ?_⟩
          intro x hx
          rcases List.mem_cons.mp hx with hx | hx
          · rw [hx]; exact hres'
          · exact hih.2.2 x hx
        | finished b t =>
          have hih := ih (some (extract_code raw))
            ((testParser (env.runCandidate (extract_code raw)) exp).snd) (att + 1)
          rw [hrec] at hih
          cases b with
          | true =>
            rcases hih with ⟨hlen, pre, last, hsplit, hlast, hfail⟩
            refine ⟨by simp only [List.length_cons]; omega, ?_⟩
            refine ⟨(⟨att, build_prompt env.fs p c prev emsg att, extract_code raw,
              testParser (env.runCandidate (extract_code raw)) exp⟩ : AttemptRec) :: pre,
              last, ?_, hlast, ?_⟩
            · rw [hsplit, List.cons_append]
            · intro x hx
              rcases List.mem_cons.mp hx with hx | hx
              · rw [hx]; exact hres'
              · exact hfail x hx
          | false =>
            refine ⟨by have := hih.1; simp only [List.length_cons]; omega, ?_⟩
            intro x hx
            rcases List.mem_cons.mp hx with hx | hx
            · rw [hx]; exact hres'
            · exact hih.2 x hx

/-- A fatal loop outcome: exit code 1, fewer cycles than the budget, all
completed cycles failed. -/
theorem loopGo_fatal_char (env : Env) (p c : String) (exp : DataFrame)
    (rem : Nat) (prev emsg : Option String) (att : Nat) (cd : Nat) (t : List AttemptRec)
    (h : loopGo env p c exp rem prev emsg att = LoopResult.fatal cd t) :
    cd = 1 ∧ t.length < rem ∧ ∀ x ∈ t, x.outcome.fst = false := by
  have hch := loopGo_char env p c exp rem prev emsg att
  rw [h] at hch
  exact hch

/-- A successful loop outcome: it stops at the first succeeding cycle. -/
theorem loopGo_true_char (env : Env) (p c : String) (exp : DataFrame)
    (rem : Nat) (prev emsg : Option String) (att : Nat) (t : List AttemptRec)
    (h : loopGo env p c exp rem prev emsg att = LoopResult.finished true t) :
    t.length ≤ rem ∧ ∃ pre last, t = pre ++ [last] ∧ last.outcome.fst = true ∧
      ∀ x ∈ pre, x.outcome.fst = false := by
  have hch := loopGo_char env p c exp rem prev emsg att
  rw [h] at hch
  exact hch

/-- A failed loop outcome: the whole budget was spent on failing cycles. -/
theorem loopGo_false_char (env : Env) (p c : String) (exp : DataFrame)
    (rem : Nat) (prev emsg : Option String) (att : Nat) (t : List AttemptRec)
    (h : loopGo env p c exp rem prev emsg att = LoopResult.finished false t) :
    t.length = rem ∧ ∀ x ∈ t, x.outcome.fst = false := by
  have hch := loopGo_char env p c exp rem prev emsg att
  rw [h] at hch
  exact hch

/-- The loop performs at most `rem` cycles and at most `rem` LLM calls. -/
theorem loopGo_trace_le (env : Env) (p c : String) (exp : DataFrame)
    (rem : Nat) (prev emsg : Option String) (att : Nat) :
    (traceOf (loopGo env p c exp rem prev emsg att)).length ≤ rem ∧
    llmCalls (loopGo env p c exp rem prev emsg att) ≤ rem := by
  have hch := loopGo_char env p c exp rem prev emsg att
  cases hres : loopGo env p c exp rem prev emsg att with
  | fatal cd t =>
    rw [hres] at hch
    have hlt : t.length < rem := hch.2.1
    constructor
    · simp only [traceOf]; omega
    · simp only [llmCalls]; omega
  | finished b t =>
    rw [hres] at hch
    cases b with
    | true =>
      have hle : t.length ≤ rem := hch.1
      constructor
      · simp only [traceOf]; omega
      · simp only [llmCalls]; omega
    | false =>
      have hle : t.length = rem := hch.1
      constructor
      · simp only [traceOf]; omega
      · simp only [llmCalls]; omega

/-- When both input files exist, `agent_loop` is the attempt loop started
with the loaded reference, no feedback, attempt 1 and the full budget. -/
theorem agent_loop_run (env : Env) (bank : String) (N : Nat)
    (hp : env.fs.fileExists (pdfPathOf bank) = true)
    (hc : env.fs.fileExists (csvPathOf bank) = true) :
    agent_loop env bank N
      = loopGo env (pdfPathOf bank) (csvPathOf bank)
          (env.fs.read_csv (csvPathOf bank)) N none none 1 := by
  unfold agent_loop
  rw [if_neg (by simp [hp]), if_neg (by simp [hc])]

/-- C3: with both inputs present and a budget of N ≥ 1 attempts, the
orchestrator performs at most N generate/extract/persist/validate cycles
and at most N service calls, always reaching a terminal result (the loop is
a total function of the environment); on success the trace is some failed
cycles followed by the one succeeding cycle — it returns True immediately
at the first success; on failure it returns False after exactly N failed
cycles. -/
theorem spec_c3 (env : Env) (bank : String) (N : Nat) (_h1 : 1 ≤ N)
    (hp : env.fs.fileExists (pdfPathOf bank) = true)
    (hc : env.fs.fileExists (csvPathOf bank) = true) :
    (traceOf (agent_loop env bank N)).length ≤ N ∧
    llmCalls (agent_loop env bank N) ≤ N ∧
    (∀ t, agent_loop env bank N = LoopResult.finished true t →
       ∃ pre last, t = pre ++ [last] ∧ last.outcome.fst = true ∧
         ∀ x ∈ pre, x.outcome.fst = false) ∧
    (∀ t, agent_loop env bank N = LoopResult.finished false t →
       t.length = N ∧ ∀ x ∈ t, x.outcome.fst = false) := by
  have hrun := agent_loop_run env bank N hp hc
  refine ⟨?_, ?_, ?_, ?_⟩
  · rw [hrun]
    exact (loopGo_trace_le env (pdfPathOf bank) (csvPathOf bank)
      (env.fs.read_csv (csvPathOf bank)) N none none 1).1
  · rw [hrun]
    exact (loopGo_trace_le env (pdfPathOf bank) (csvPathOf bank)
      (env.fs.read_csv (csvPathOf bank)) N none none 1).2
  · intro t ht
    rw [hrun] at ht
    exact (loopGo_true_char env _ _ _ N none none 1 t ht).2
  · intro t ht
    rw [hrun] at ht
    exact loopGo_false_char env _ _ _ N none none 1 t ht

/-- Witness for C3 at a concrete environment whose first candidate
validates: the trace stays within the budget of 3. -/
theorem spec_c3_witness :
    (traceOf (agent_loop envSample "icici" 3)).length ≤ 3 ∧
    llmCalls (agent_loop envSample "icici" 3) ≤ 3 :=
  ⟨ (spec_c3 envSample "icici" 3 (by decide) rfl rfl).1,
    (spec_c3 envSample "icici" 3 (by decide) rfl rfl).2.1 ⟩

/-- C4: the process exit status is 0 or 1; it is 0 exactly when some
attempt's validation succeeded; a missing document or reference file exits
with 1 before any cycle; an LLM service failure is fatal — with an
always-failing service the process exits 1 after exactly one service call,
with no completed cycle and no retry; and every mid-run exit carries code
1. -/
theorem spec_c4 (env : Env) (bank : String) (N : Nat) :
    (mainExit env bank N = 0 ∨ mainExit env bank N = 1) ∧
    (mainExit env bank N = 0 ↔ ∃ x ∈ traceOf (agent_loop env bank N), x.outcome.fst = true) ∧
    ((env.fs.fileExists (pdfPathOf bank) = false ∨ env.fs.fileExists (csvPathOf bank) = false) →
       mainExit env bank N = 1 ∧ traceOf (agent_loop env bank N) = []) ∧
    ((∀ pr, env.llm pr = none) → env.fs.fileExists (pdfPathOf bank) = true →
       env.fs.fileExists (csvPathOf bank) = true → 1 ≤ N →
       agent_loop env bank N = LoopResult.fatal 1 [] ∧ mainExit env bank N = 1 ∧
       llmCalls (agent_loop env bank N) = 1) ∧
    (∀ cd t, agent_loop env bank N = LoopResult.fatal cd t → cd = 1) := by
  by_cases hp : env.fs.fileExists (pdfPathOf bank) = true
  · by_cases hc : env.fs.fileExists (csvPathOf bank) = true
    · have hrun := agent_loop_run env bank N hp hc
      have hmain : ∀ res, agent_loop env bank N = res → mainExit env bank N
          = (match res with
             | LoopResult.fatal cd _ => cd
             | LoopResult.finished b _ => if b then 0 else 1) := by
        intro res hres
        unfold mainExit
        rw [hres]
      refine ⟨?_, ?_, ?_, ?_, ?_⟩
      · cases hres : agent_loop env bank N with
        | fatal cd t =>
          have hres' := hres
          rw [hrun] at hres'
          have hcd := (loopGo_fatal_char env _ _ _ N none none 1 cd t hres').1
          rw [hmain _ hres, hcd]
          right; rfl
        | finished b t =>
          rw [hmain _ hres]
          cases b
          · right; rfl
          · left; rfl
      · cases hres : agent_loop env bank N with
        | fatal cd t =>
          have hres' := hres
          rw [hrun] at hres'
          have hch := loopGo_fatal_char env _ _ _ N none none 1 cd t hres'
          rw [hmain _ hres]
          constructor
          · intro h0
            rw [hch.1] at h0
            cases h0
          · rintro ⟨x, hx, hxt⟩
            rw [hch.2.2 x hx] at hxt
            cases hxt
        | finished b t =>
          have hres' := hres
          rw [hrun] at hres'
          rw [hmain _ hres]
          cases b with
          | true =>
            obtain ⟨_, pre, last, hsplit, hlast, _⟩ :=
              loopGo_true_char env _ _ _ N none none 1 t hres'
            simp only [traceOf, if_true]
            constructor
            · intro _
              exact ⟨last, by rw [hsplit]; simp, hlast⟩
            · intro _
              trivial
          | false =>
            obtain ⟨_, hall⟩ := loopGo_false_char env _ _ _ N none none 1 t hres'
            simp only [traceOf]
            constructor
            · intro h0
              cases h0
            · rintro ⟨x, hx, hxt⟩
              rw [hall x hx] at hxt
              cases hxt
      · intro hmiss
        rcases hmiss with hm | hm
        · rw [hp] at hm
          cases hm
        · rw [hc] at hm
          cases hm
      · intro hllm _ _ h1
        obtain ⟨n, rfl⟩ : ∃ n, N = n + 1 := ⟨N - 1, by omega⟩
        have hag : agent_loop env bank (n + 1) = LoopResult.fatal 1 [] := by
          rw [hrun]
          simp only [loopGo]
          simp [call_llm, hllm]
        refine ⟨hag, ?_, ?_⟩
        · unfold mainExit
          rw [hag]
        · rw [hag]
          rfl
      · intro cd t h
        rw [hrun] at h
        exact (loopGo_fatal_char env _ _ _ N none none 1 cd t h).1
    · have hc' : env.fs.fileExists (csvPathOf bank) = false := by
        revert hc
        cases env.fs.fileExists (csvPathOf bank) <;> simp
      have hag : agent_loop env bank N = LoopResult.finished false [] := by
        unfold agent_loop
        by_cases hpd : env.fs.fileExists (pdfPathOf bank) = false
        · rw [if_pos hpd]
        · rw [if_neg hpd, if_pos hc']
      have hm1 : mainExit env bank N = 1 := by
        unfold mainExit
        rw [hag]
        rfl
      refine ⟨Or.inr hm1, ?_, fun _ => ⟨hm1, by rw [hag]; rfl⟩, ?_, ?_⟩
      · rw [hag, hm1]
        simp [traceOf]
      · intro _ _ hce _
        exact absurd hce hc
      · intro cd t h
        rw [hag] at h
        cases h
  · have hp' : env.fs.fileExists (pdfPathOf bank) = false := by
      revert hp
      cases env.fs.fileExists (pdfPathOf bank) <;> simp
    have hag : agent_loop env bank N = LoopResult.finished false [] := by
      unfold agent_loop
      rw [if_pos hp']
    have hm1 : mainExit env bank N = 1 := by
      unfold mainExit
      rw [hag]
      rfl
    refine ⟨Or.inr hm1, ?_, fun _ => ⟨hm1, by rw [hag]; rfl⟩, ?_, ?_⟩
    · rw [hag, hm1]
      simp [traceOf]
    · intro _ hpe _ _
      exact absurd hpe hp
    · intro cd t h
      rw [hag] at h
      cases h

/-- Witness for C4: an environment whose service always fails exits with
status 1 immediately, after exactly one call and zero completed cycles. -/
theorem spec_c4_witness :
    agent_loop envNoLLM "icici" 3 = LoopResult.fatal 1 [] ∧
    mainExit envNoLLM "icici" 3 = 1 ∧
    llmCalls (agent_loop envNoLLM "icici" 3) = 1 :=
  (spec_c4 envNoLLM "icici" 3).2.2.2.1 (fun _ => rfl) rfl rfl (by decide)
